import Mathlib

/-!
Shallow embedding of the namespace routing and multi-namespace access layer
of the MCP Streamable HTTP Cloudflare worker (src/src/index.ts together with
the environment module src/unnamed/part_000, the env.ts of the worker).

The underlying per-namespace key-value store is an external collaborator;
it is modelled by explicit behaviour parameters (page functions, per-key read
results, put-failure oracles) exactly at the interface the source code uses.
Asynchronous store calls that can reject are modelled with Except; the
unbounded do-while pagination loop is modelled with explicit fuel, where a
result of none means the loop is still running after that many page calls.
-/

namespace Spec2Proof

/-- Association-list lookup with string keys, modelling JavaScript object
index access such as NAMESPACE_MAP[name] and FOLDER_BINDING_MAP[folder]. -/
def lookupAssoc {β : Type} : List (String × β) → String → Option β
  | [], _ => none
  | (k, v) :: rest, key => if key = k then some v else lookupAssoc rest key

/-- The binding keys declared on the Env interface of the environment module
(src/unnamed/part_000, lines 5-36): BRIDGE_ACCOUNTS plus twenty KV bindings.
Note that no EMAIL_BODIES binding is declared. -/
def declaredBindings : List String :=
  ["BRIDGE_ACCOUNTS",
   "KV_COURT_OF_APPEAL", "KV_CHANCERY", "KV_ADMIN_COURT", "KV_KINGS_BENCH",
   "KV_SUPREME", "KV_CLERKENWELL", "KV_CENTRAL_LONDON",
   "KV_LIU", "KV_HK_LAW", "KV_LESSEL", "KV_LETTING_AGENTS", "KV_BARRISTERS",
   "KV_GLD", "KV_US_STATE_DEPT", "KV_ESTONIA",
   "KV_HMCTS", "KV_ICO", "KV_PHSO", "KV_BAR_STANDARDS", "KV_PARLIAMENT"]

/-- NAMESPACE_MAP from the environment module: human-readable namespace name
to binding key, in source order. -/
def NAMESPACE_MAP : List (String × String) :=
  [("bridge-accounts", "BRIDGE_ACCOUNTS"),
   ("court-of-appeal", "KV_COURT_OF_APPEAL"),
   ("chancery", "KV_CHANCERY"),
   ("admin-court", "KV_ADMIN_COURT"),
   ("kings-bench", "KV_KINGS_BENCH"),
   ("supreme", "KV_SUPREME"),
   ("clerkenwell", "KV_CLERKENWELL"),
   ("central-london", "KV_CENTRAL_LONDON"),
   ("liu", "KV_LIU"),
   ("hk-law", "KV_HK_LAW"),
   ("lessel", "KV_LESSEL"),
   ("letting-agents", "KV_LETTING_AGENTS"),
   ("barristers", "KV_BARRISTERS"),
   ("gld", "KV_GLD"),
   ("us-state-dept", "KV_US_STATE_DEPT"),
   ("estonia", "KV_ESTONIA"),
   ("hmcts", "KV_HMCTS"),
   ("ico", "KV_ICO"),
   ("phso", "KV_PHSO"),
   ("bar-standards", "KV_BAR_STANDARDS"),
   ("parliament", "KV_PARLIAMENT")]

/-- One entry of FOLDER_BINDING_MAP: the binding key of the owning store and
the human-readable name recorded for the folder. -/
structure FolderMapping where
  binding : String
  humanName : String
deriving DecidableEq, Repr

/-- FOLDER_BINDING_MAP from the environment module: IMAP folder path to the
owning namespace binding, in source order. -/
def FOLDER_BINDING_MAP : List (String × FolderMapping) :=
  [("INBOX/MobiCycle Estonia/Liu", ⟨"KV_LIU", "Liu Litigation"⟩),
   ("INBOX/MobiCycle Estonia/HK Law", ⟨"KV_HK_LAW", "HK Law Defendants"⟩),
   ("INBOX/MobiCycle Estonia/Lessel", ⟨"KV_LESSEL", "Lessel Property"⟩),
   ("INBOX/MobiCycle Estonia/Letting Agents", ⟨"KV_LETTING_AGENTS", "Rentify Letting Agents"⟩),
   ("Labels/HK Law", ⟨"KV_HK_LAW", "HK Law Defendants"⟩),
   ("Labels/Liu", ⟨"KV_LIU", "Liu Litigation"⟩),
   ("Labels/Veena", ⟨"KV_BARRISTERS", "Pro Bono Barristers"⟩),
   ("INBOX/Government/GLD", ⟨"KV_GLD", "Government Legal Department"⟩),
   ("INBOX/Government/US State Dept", ⟨"KV_US_STATE_DEPT", "US State Department"⟩),
   ("INBOX/Government/Estonia", ⟨"KV_ESTONIA", "Estonian Government"⟩),
   ("INBOX/Courts/Court of Appeal", ⟨"KV_COURT_OF_APPEAL", "Court of Appeal"⟩),
   ("INBOX/Courts/Chancery", ⟨"KV_CHANCERY", "Chancery Division"⟩),
   ("INBOX/Courts/Admin Court", ⟨"KV_ADMIN_COURT", "Administrative Court"⟩),
   ("INBOX/Courts/Kings Bench", ⟨"KV_KINGS_BENCH", "King's Bench Division"⟩),
   ("INBOX/Courts/Supreme", ⟨"KV_SUPREME", "Supreme Court"⟩),
   ("INBOX/Courts/Clerkenwell", ⟨"KV_CLERKENWELL", "Clerkenwell County Court"⟩),
   ("INBOX/Courts/Central London", ⟨"KV_CENTRAL_LONDON", "Central London County Court"⟩),
   ("INBOX/Complaints/HMCTS", ⟨"KV_HMCTS", "HMCTS Complaints"⟩),
   ("INBOX/Complaints/ICO", ⟨"KV_ICO", "ICO Complaints"⟩),
   ("INBOX/Complaints/PHSO", ⟨"KV_PHSO", "PHSO Complaints"⟩),
   ("INBOX/Complaints/Bar Standards", ⟨"KV_BAR_STANDARDS", "Bar Standards Board"⟩),
   ("INBOX/Complaints/Parliament", ⟨"KV_PARLIAMENT", "Parliamentary Complaints"⟩)]

/-- The worker environment as resolveKV observes it: which binding keys are
present on the env object (the JavaScript test nameOrBinding in env). -/
structure WEnv where
  hasBinding : String → Bool

/-- The comma-separated enumeration of all human-readable names, as built by
Object.keys(NAMESPACE_MAP).join of the source. -/
def availableNames : String :=
  String.intercalate ", " (NAMESPACE_MAP.map Prod.fst)

/-- The error message thrown by resolveKV for an unresolvable input
(src/src/index.ts, lines 29-31). -/
def unknownNamespaceMsg (nameOrBinding : String) : String :=
  "Unknown namespace: \"" ++ nameOrBinding ++ "\". Available: " ++ availableNames

/-- resolveKV (src/src/index.ts, lines 19-32): try the input as a raw binding
key on env first; else look it up in NAMESPACE_MAP and try the resolved
binding key (the source also requires the looked-up value to be truthy,
modelled as nonempty); else throw the unknown-namespace error. The result is
the binding key under which the store was found. -/
def resolveKV (env : WEnv) (nameOrBinding : String) : Except String String :=
  if env.hasBinding nameOrBinding then
    Except.ok nameOrBinding
  else
    match lookupAssoc NAMESPACE_MAP nameOrBinding with
    | some bindingKey =>
        if bindingKey ≠ "" ∧ env.hasBinding bindingKey then
          Except.ok bindingKey
        else
          Except.error (unknownNamespaceMsg nameOrBinding)
    | none => Except.error (unknownNamespaceMsg nameOrBinding)

/-- One page returned by the list call of the underlying store: the key names
of the page, the list_complete flag, and the continuation cursor. The cursor
type is a parameter because the source threads it opaquely. -/
structure PageResult (σ : Type) where
  keys : List String
  list_complete : Bool
  cursor : σ
deriving DecidableEq, Repr

/-- The list interface of one underlying store, as the source calls it:
kv.list with an optional key prefix, an optional cursor from the previous
page, and a requested limit. A pure function of those inputs models one
store behaviour; the cursor values are modelled as always truthy. -/
structure KVList (σ : Type) where
  list : Option String → Option σ → Nat → PageResult σ

/-- The do-while loop body of listAllKeys (src/src/index.ts, lines 35-44)
with explicit fuel: each iteration issues one kv.list call with limit 1000,
appends the page keys, and repeats while the page is not complete. The
returned Nat counts the page calls made; none means the fuel ran out with
the loop still running. The source loop itself has no bound of any kind. -/
def listAllKeysGo {σ : Type} (kv : KVList σ) (pfx : Option String) :
    Nat → Option σ → List String → Nat → Option (List String × Nat)
  | 0, _, _, _ => none
  | fuel + 1, cursor, acc, pages =>
    if (kv.list pfx cursor 1000).list_complete then
      some (acc ++ (kv.list pfx cursor 1000).keys, pages + 1)
    else
      listAllKeysGo kv pfx fuel (some (kv.list pfx cursor 1000).cursor)
        (acc ++ (kv.list pfx cursor 1000).keys) (pages + 1)

/-- listAllKeys: run the pagination loop from no cursor with an empty
accumulator, counting page calls from zero. -/
def listAllKeys {σ : Type} (kv : KVList σ) (pfx : Option String) (fuel : Nat) :
    Option (List String × Nat) :=
  listAllKeysGo kv pfx fuel none [] 0

/-- Key-prefix test on the character lists of the two strings. -/
def strIsPrefixOf (p s : String) : Bool :=
  p.data.isPrefixOf s.data

/-- Prefix filtering performed by a store on its key enumeration. -/
def prefFilter (pfx : Option String) (keys : List String) : List String :=
  match pfx with
  | none => keys
  | some p => keys.filter (fun k => strIsPrefixOf p k)

/-- A well-behaved store holding the given key enumeration and serving pages
of size P: the cursor is the index of the next key, and list_complete is
reported exactly when the enumeration is exhausted by the current page. -/
def goodStore (keys : List String) (P : Nat) : KVList Nat where
  list pfx cursor _limit :=
    { keys := ((prefFilter pfx keys).drop (cursor.getD 0)).take P
      list_complete := decide ((prefFilter pfx keys).length ≤ cursor.getD 0 + P)
      cursor := cursor.getD 0 + P }

/-- A store that never reports completion: every page is empty, not complete,
and hands back a cursor, so the source loop never exits. -/
def evilStore : KVList Unit where
  list _ _ _ := { keys := [], list_complete := false, cursor := () }

/-- A store whose every page is complete at once, carrying one key. -/
def oneShotStore : KVList Unit where
  list _ _ _ := { keys := ["k1"], list_complete := true, cursor := () }

/-- Number of page calls the loop makes to exhaust r remaining keys at page
size P: at least one call is always made (do-while), and otherwise it is the
ceiling of r / P. -/
def pagesFor (P r : Nat) : Nat := max 1 ((r + P - 1) / P)

/-- One stored key-value entry together with the side metadata object
attached by the put call, modelled as a list of string fields. -/
structure KVEntry where
  value : String
  sideMeta : List (String × String)
deriving DecidableEq, Repr

/-- The mutable contents of the whole fleet of stores: binding key, then
entry key, to the stored entry. -/
def World : Type := String → String → Option KVEntry

/-- A put into one store of the world, overwriting the entry under the key. -/
def putKV (w : World) (store key value : String)
    (sideMeta : List (String × String)) : World :=
  fun s k => if s = store ∧ k = key then some ⟨value, sideMeta⟩ else w s k

/-- Observable outcome of the email_store tool handler: a normal result with
isError true (unmapped folder), a rejected store put whose exception leaves
the handler (thrown), or the success payload fields. -/
inductive EmailStoreOutcome where
  | errText (text : String)
  | thrown
  | ok (metadata_key : String) (body_key : String)
deriving DecidableEq, Repr

/-- The email_store handler (src/src/index.ts, lines 305-333). The folder is
routed through FOLDER_BINDING_MAP; when unmapped, an isError result is
returned with no store access. Otherwise the metadata value is put into the
owning store with side metadata {folder, body_uuid, stored_at}, and then the
body is put into the shared EMAIL_BODIES store with side metadata
{folder, humanName, stored_at}. The oracle fail says which put calls reject;
a rejected await ends the handler with the world as mutated so far. The
timestamp new Date().toISOString() is passed in as now. -/
def emailStore (fail : String → String → Bool) (now : String) (w : World)
    (folder key metadata body_key body : String) : World × EmailStoreOutcome :=
  match lookupAssoc FOLDER_BINDING_MAP folder with
  | none => (w, .errText ("Folder \"" ++ folder ++ "\" is not mapped"))
  | some mapping =>
    if fail mapping.binding key then
      (w, .thrown)
    else
      let w1 := putKV w mapping.binding key metadata
        [("folder", folder), ("body_uuid", body_key), ("stored_at", now)]
      if fail "EMAIL_BODIES" body_key then
        (w1, .thrown)
      else
        let w2 := putKV w1 "EMAIL_BODIES" body_key body
          [("folder", folder), ("humanName", mapping.humanName), ("stored_at", now)]
        (w2, .ok key body_key)

/-- The kv_keys_bulk_get handler (src/src/index.ts, lines 173-182). Each
per-key read either rejects (error) or yields the stored value or null. The
handler awaits Promise.all over all reads: any rejected read rejects the
whole call, so the result is either an error or the full key-to-value
association. -/
def kvKeysBulkGet (get : String → Except Unit (Option String)) :
    List String → Except Unit (List (String × Option String))
  | [] => Except.ok []
  | k :: rest =>
    match get k with
    | Except.error e => Except.error e
    | Except.ok v =>
      match kvKeysBulkGet get rest with
      | Except.error e => Except.error e
      | Except.ok l => Except.ok ((k, v) :: l)

/-- A tool result as the dispatch surface sees it: one text payload and the
error flag. -/
structure ToolText where
  text : String
  isError : Bool
deriving DecidableEq, Repr

/-- The kv_key_get handler after namespace resolution (src/src/index.ts,
lines 120-127): the store read yields null (none) for an absent key; the
handler turns null into a result with isError true and a message naming the
key, and a present value into a plain text result. -/
def kvKeyGet (get : String → Option String) (key : String) : ToolText :=
  match get key with
  | none => ⟨"Key \"" ++ key ++ "\" not found", true⟩
  | some v => ⟨v, false⟩

/-- Value recorded by the pipeline_status handler from one probe page:
the number of keys on the limit-1 page when the page is complete, and the
sentinel -1 when it is not. -/
def probeValue (res : Except Unit (Nat × Bool)) : Int :=
  match res with
  | Except.error _ => -1
  | Except.ok (len, complete) => if complete then (len : Int) else -1

/-- The loop of the pipeline_status handler (src/src/index.ts, lines
346-372) over the entries of NAMESPACE_MAP: the names email-bodies and
bridge-accounts are skipped; for every other entry one kv.list probe with
limit 1 is issued via probe on the binding key, a caught failure records -1,
and the scan always continues with the remaining namespaces. -/
def pipelineStatusGo (probe : String → Except Unit (Nat × Bool)) :
    List (String × String) → List (String × Int)
  | [] => []
  | (name, bindingKey) :: rest =>
    if name = "email-bodies" ∨ name = "bridge-accounts" then
      pipelineStatusGo probe rest
    else
      (name, probeValue (probe bindingKey)) :: pipelineStatusGo probe rest

/-- The pipeline_status handler applied to the registered NAMESPACE_MAP. -/
def pipelineStatus (probe : String → Except Unit (Nat × Bool)) :
    List (String × Int) :=
  pipelineStatusGo probe NAMESPACE_MAP

/-- The limit-1 list probe of a live store holding n keys: it returns
min n 1 keys and reports completion exactly when n is at most one. The
behaviour sizes gives, per binding key, the key count of the store, or none
when the probe call itself fails. -/
def probeOf (sizes : String → Option Nat) :
    String → Except Unit (Nat × Bool) :=
  fun bindingKey =>
    match sizes bindingKey with
    | none => Except.error ()
    | some n => Except.ok (min n 1, decide (n ≤ 1))

/-- Observable outcome of the email_folder_stats handler. -/
inductive StatsOutcome where
  | notMapped (text : String)
  | stats (humanName binding : String) (emailCount : Nat)
deriving DecidableEq, Repr

/-- The email_folder_stats handler (src/src/index.ts, lines 257-289): the
folder is routed through FOLDER_BINDING_MAP; when unmapped, an isError
result is returned. Otherwise listAllKeys is run on the owning store with
the fixed prefix "email:" and the count of the enumerated keys is reported.
The outer none records fuel exhaustion of the pagination loop. -/
def emailFolderStats {σ : Type} (stores : String → KVList σ) (fuel : Nat)
    (folder : String) : Option StatsOutcome :=
  match lookupAssoc FOLDER_BINDING_MAP folder with
  | none => some (.notMapped ("Folder \"" ++ folder ++
      "\" is not mapped. Use email_list_folders to see available folders."))
  | some mapping =>
    match listAllKeys (stores mapping.binding) (some "email:") fuel with
    | none => none
    | some (keys, _) => some (.stats mapping.humanName mapping.binding keys.length)

/-- The hardcoded category table of the namespaces_list handler
(src/src/index.ts, lines 196-205). -/
def namespacesListCategories : List (String × List String) :=
  [("system", ["bridge-accounts", "email-bodies"]),
   ("courts", ["court-of-appeal", "chancery", "admin-court", "kings-bench",
               "supreme", "clerkenwell", "central-london"]),
   ("claimants", ["liu", "hk-law", "lessel", "letting-agents", "barristers"]),
   ("government", ["gld", "us-state-dept", "estonia"]),
   ("complaints", ["hmcts", "ico", "phso", "bar-standards", "parliament"])]

/-- A concrete environment carrying exactly the declared bindings. -/
def envDeclared : WEnv :=
  ⟨fun b => decide (b ∈ declaredBindings)⟩

/-- Read behaviour where the read of key a rejects and every other read
completes with a value. -/
def cexGet : String → Except Unit (Option String) :=
  fun k => if k = "a" then Except.error () else Except.ok (some "v")

/-- Read behaviour where every read completes with null (absent key). -/
def allAbsentGet : String → Except Unit (Option String) :=
  fun _ => Except.ok none

/-- Put-failure oracle that rejects exactly the puts into EMAIL_BODIES. -/
def failBodiesOnly : String → String → Bool :=
  fun s _ => decide (s = "EMAIL_BODIES")

/-- Put-failure oracle that rejects nothing. -/
def noFail : String → String → Bool := fun _ _ => false

/-- The empty world: every store holds no entries. -/
def emptyWorld : World := fun _ _ => none

/-- Fleet sizes for the scan witness: the probe call for KV_LIU fails, the
KV_ICO store holds one key, every other store holds five keys. -/
def sizesW : String → Option Nat :=
  fun bk => if bk = "KV_LIU" then none else if bk = "KV_ICO" then some 1 else some 5

/-!
Helper lemmas. These carry the inductive content shared by the claim
theorems below; no claim theorem is used by any other declaration.
-/

/-- Positivity of the page-call count. -/
lemma pagesFor_pos (P r : Nat) : 0 < pagesFor P r := by
  unfold pagesFor; omega

/-- A last page: when at most P keys remain, the loop makes one more call. -/
lemma pagesFor_base (P r : Nat) (hP : 0 < P) (h : r ≤ P) : pagesFor P r = 1 := by
  unfold pagesFor
  have h1 : (r + P - 1) / P < 2 := (Nat.div_lt_iff_lt_mul hP).mpr (by omega)
  omega

/-- An intermediate page: more than P keys remaining cost one call plus the
calls for the rest. -/
lemma pagesFor_step (P r : Nat) (hP : 0 < P) (h : P < r) :
    pagesFor P r = 1 + pagesFor P (r - P) := by
  unfold pagesFor
  have e1 : r - P + P - 1 = r - 1 := by omega
  have e2 : r + P - 1 = (r - 1) + P := by omega
  rw [e1, e2, Nat.add_div_right _ hP]
  have h1 : 1 ≤ (r - 1) / P := (Nat.one_le_div_iff hP).mpr (by omega)
  omega

/-- One list call of the well-behaved store, written out. -/
lemma goodStore_list (keys : List String) (P : Nat) (pfx : Option String)
    (c : Option Nat) (lim : Nat) :
    (goodStore keys P).list pfx c lim =
      ⟨((prefFilter pfx keys).drop (c.getD 0)).take P,
       decide ((prefFilter pfx keys).length ≤ c.getD 0 + P),
       c.getD 0 + P⟩ := rfl

/-- Unfolding of one loop iteration of listAllKeysGo. -/
lemma listAllKeysGo_succ {σ : Type} (kv : KVList σ) (pfx : Option String)
    (fuel : Nat) (c : Option σ) (acc : List String) (pages : Nat) :
    listAllKeysGo kv pfx (fuel + 1) c acc pages =
      if (kv.list pfx c 1000).list_complete then
        some (acc ++ (kv.list pfx c 1000).keys, pages + 1)
      else
        listAllKeysGo kv pfx fuel (some (kv.list pfx c 1000).cursor)
          (acc ++ (kv.list pfx c 1000).keys) (pages + 1) := rfl

/-- Main pagination invariant: against the well-behaved store the loop,
started at any cursor position with enough fuel, appends exactly the
remaining filtered keys and makes exactly pagesFor more page calls. -/
lemma goodStore_go (keys : List String) (P : Nat) (hP : 0 < P) (pfx : Option String) :
    ∀ (fuel : Nat) (c : Option Nat) (acc : List String) (pages : Nat),
      pagesFor P ((prefFilter pfx keys).length - c.getD 0) ≤ fuel →
      listAllKeysGo (goodStore keys P) pfx fuel c acc pages =
        some (acc ++ (prefFilter pfx keys).drop (c.getD 0),
              pages + pagesFor P ((prefFilter pfx keys).length - c.getD 0)) := by
  intro fuel
  induction fuel with
  | zero =>
    intro c acc pages hf
    exact absurd hf (by have := pagesFor_pos P ((prefFilter pfx keys).length - c.getD 0); omega)
  | succ fuel ih =>
    intro c acc pages hf
    rw [listAllKeysGo_succ, goodStore_list]
    by_cases hcomp : (prefFilter pfx keys).length ≤ c.getD 0 + P
    · rw [if_pos (decide_eq_true hcomp)]
      have htake : ((prefFilter pfx keys).drop (c.getD 0)).take P =
          (prefFilter pfx keys).drop (c.getD 0) := by
        apply List.take_of_length_le
        rw [List.length_drop]
        omega
      rw [htake, pagesFor_base P _ hP (by omega)]
    · rw [if_neg (by simpa using hcomp)]
      have hlt : P < (prefFilter pfx keys).length - c.getD 0 := by omega
      have hstep := pagesFor_step P ((prefFilter pfx keys).length - c.getD 0) hP hlt
      have hsub : (prefFilter pfx keys).length - c.getD 0 - P =
          (prefFilter pfx keys).length - (c.getD 0 + P) := by omega
      rw [hstep, hsub] at hf
      have := ih (some (c.getD 0 + P))
        (acc ++ ((prefFilter pfx keys).drop (c.getD 0)).take P) (pages + 1)
        (by simp only [Option.getD_some]; omega)
      simp only [Option.getD_some] at this
      rw [this]
      have hkeys : (acc ++ ((prefFilter pfx keys).drop (c.getD 0)).take P) ++
          (prefFilter pfx keys).drop (c.getD 0 + P) =
          acc ++ (prefFilter pfx keys).drop (c.getD 0) := by
        rw [List.append_assoc]
        congr 1
        rw [← List.drop_drop, List.take_append_drop]
      rw [hkeys, hstep, hsub]
      congr 2
      omega

/-- listAllKeys against the well-behaved store returns the whole filtered
enumeration and the exact page-call count. -/
lemma listAllKeys_goodStore (keys : List String) (P : Nat) (hP : 0 < P)
    (pfx : Option String) (fuel : Nat)
    (hf : pagesFor P (prefFilter pfx keys).length ≤ fuel) :
    listAllKeys (goodStore keys P) pfx fuel =
      some (prefFilter pfx keys, pagesFor P (prefFilter pfx keys).length) := by
  have h := goodStore_go keys P hP pfx fuel none [] 0 (by simpa using hf)
  simpa [listAllKeys] using h

/-- Against the never-completing store the loop consumes any amount of fuel
without returning. -/
lemma evilStore_go (pfx : Option String) :
    ∀ (fuel : Nat) (c : Option Unit) (acc : List String) (pages : Nat),
      listAllKeysGo evilStore pfx fuel c acc pages = none := by
  intro fuel
  induction fuel with
  | zero => intro c acc pages; rfl
  | succ fuel ih => intro c acc pages; exact ih (some ()) (acc ++ []) (pages + 1)

/-- A successful association lookup comes from a member of the list. -/
lemma lookupAssoc_mem {β : Type} :
    ∀ (l : List (String × β)) (k : String) (v : β),
      lookupAssoc l k = some v → (k, v) ∈ l := by
  intro l
  induction l with
  | nil => intro k v h; cases h
  | cons p rest ih =>
    obtain ⟨k0, v0⟩ := p
    intro k v h
    rw [lookupAssoc] at h
    by_cases hk : k = k0
    · rw [if_pos hk] at h
      cases h
      exact hk ▸ List.mem_cons_self _ _
    · rw [if_neg hk] at h
      exact List.mem_cons_of_mem _ (ih k v h)

/-- No folder of FOLDER_BINDING_MAP is owned by the shared bodies store. -/
lemma folder_binding_ne_bodies (folder : String) (m : FolderMapping)
    (h : lookupAssoc FOLDER_BINDING_MAP folder = some m) :
    m.binding ≠ "EMAIL_BODIES" := by
  have hmem := lookupAssoc_mem _ _ _ h
  have hall : ∀ p ∈ FOLDER_BINDING_MAP, (Prod.snd p).binding ≠ "EMAIL_BODIES" := by decide
  exact hall _ hmem

/-- The scan loop, on a registry with distinct names, records for every
non-excluded entry exactly the value of that entry's own probe, whatever the
probes of the other entries do. -/
lemma pipelineStatusGo_lookup (probe : String → Except Unit (Nat × Bool)) :
    ∀ (l : List (String × String)) (name bk : String),
      (l.map Prod.fst).Nodup → (name, bk) ∈ l →
      name ≠ "email-bodies" → name ≠ "bridge-accounts" →
      lookupAssoc (pipelineStatusGo probe l) name = some (probeValue (probe bk)) := by
  intro l
  induction l with
  | nil => intro name bk _ hmem _ _; cases hmem
  | cons p rest ih =>
    obtain ⟨n0, b0⟩ := p
    intro name bk hnd hmem h1 h2
    simp only [List.map_cons, List.nodup_cons] at hnd
    obtain ⟨hn0, hndr⟩ := hnd
    rw [pipelineStatusGo]
    by_cases hskip : n0 = "email-bodies" ∨ n0 = "bridge-accounts"
    · rw [if_pos hskip]
      have hmem' : (name, bk) ∈ rest := by
        rcases List.mem_cons.mp hmem with heq | h
        · exfalso
          have hfst := congrArg Prod.fst heq
          simp only at hfst
          rcases hskip with hs | hs
          · exact h1 (hfst.trans hs)
          · exact h2 (hfst.trans hs)
        · exact h
      exact ih name bk hndr hmem' h1 h2
    · rw [if_neg hskip]
      by_cases hn : name = n0
      · subst hn
        have hbk : bk = b0 := by
          rcases List.mem_cons.mp hmem with heq | h
          · exact congrArg Prod.snd heq
          · exfalso
            exact hn0 (List.mem_map_of_mem Prod.fst h)
        subst hbk
        rw [lookupAssoc, if_pos rfl]
      · rw [lookupAssoc, if_neg hn]
        have hmem' : (name, bk) ∈ rest := by
          rcases List.mem_cons.mp hmem with heq | h
          · exact absurd (congrArg Prod.fst heq) hn
          · exact h
        exact ih name bk hndr hmem' h1 h2

/-- When every requested read completes, the bulk read completes with one
entry per requested key, each carrying the value its own read produced. -/
lemma kvKeysBulkGet_ok (get : String → Except Unit (Option String)) :
    ∀ (keys : List String), (∀ k ∈ keys, ∃ v, get k = Except.ok v) →
      ∃ l, kvKeysBulkGet get keys = Except.ok l ∧
        l.map Prod.fst = keys ∧ ∀ p ∈ l, get p.1 = Except.ok p.2 := by
  intro keys
  induction keys with
  | nil => intro _; exact ⟨[], rfl, rfl, by intro p hp; cases hp⟩
  | cons k rest ih =>
    intro hok
    obtain ⟨v, hv⟩ := hok k (List.mem_cons_self k rest)
    obtain ⟨l, hl, hmap, hcorr⟩ := ih (fun k' hk' => hok k' (List.mem_cons_of_mem _ hk'))
    refine ⟨(k, v) :: l, ?_, ?_, ?_⟩
    · rw [kvKeysBulkGet, hv, hl]
    · simp [hmap]
    · intro p hp
      rcases List.mem_cons.mp hp with heq | h
      · subst heq; exact hv
      · exact hcorr p h

/-!
Claim theorems.
-/

/-- Claim C1: for every mapped folder the split write puts the metadata into
the owning store strictly before the body put into the shared bodies store.
When the metadata put itself rejects, nothing at all is written (the body
put is never reached); when the body put rejects after the metadata put
succeeded, the call ends in the thrown failure, the metadata entry is
present in the owning store with side metadata referencing the absent body
key, and the shared EMAIL_BODIES store is untouched — no rollback. -/
theorem email_store_metadata_first_body_failure
    (fail : String → String → Bool) (now : String) (w : World)
    (folder key metadata body_key body : String) (m : FolderMapping)
    (hmap : lookupAssoc FOLDER_BINDING_MAP folder = some m) :
    (fail m.binding key = true →
      emailStore fail now w folder key metadata body_key body = (w, .thrown))
  ∧ (fail m.binding key = false → fail "EMAIL_BODIES" body_key = true →
      (emailStore fail now w folder key metadata body_key body).2 = .thrown
    ∧ (emailStore fail now w folder key metadata body_key body).1 m.binding key =
        some ⟨metadata, [("folder", folder), ("body_uuid", body_key), ("stored_at", now)]⟩
    ∧ ∀ k, (emailStore fail now w folder key metadata body_key body).1 "EMAIL_BODIES" k =
        w "EMAIL_BODIES" k) := by
  have hne := folder_binding_ne_bodies folder m hmap
  constructor
  · intro hf
    simp [emailStore, hmap, hf]
  · intro hf1 hf2
    refine ⟨by simp [emailStore, hmap, hf1, hf2], ?_, ?_⟩
    · simp [emailStore, hmap, hf1, hf2, putKV]
    · intro k
      simp [emailStore, hmap, hf1, hf2, putKV, Ne.symm hne]

/-- Witness for C1: with the folder Labels/Liu, a failing bodies store and a
working KV_LIU store, the metadata entry is present after the failed call. -/
theorem email_store_metadata_first_body_failure_witness :
    (emailStore failBodiesOnly "t0" emptyWorld "Labels/Liu" "email:1" "md" "b-uuid" "body").1
        "KV_LIU" "email:1" =
      some ⟨"md", [("folder", "Labels/Liu"), ("body_uuid", "b-uuid"), ("stored_at", "t0")]⟩ :=
  ((email_store_metadata_first_body_failure failBodiesOnly "t0" emptyWorld
      "Labels/Liu" "email:1" "md" "b-uuid" "body" ⟨"KV_LIU", "Liu Litigation"⟩
      (by decide)).2 (by decide) (by decide)).2.1

/-- Claim C6: the split write on an unmapped folder returns the isError
not-mapped result and leaves the whole world — in particular the folder
stores and the shared bodies store — exactly unchanged. -/
theorem email_store_unmapped_no_writes
    (fail : String → String → Bool) (now : String) (w : World)
    (folder key metadata body_key body : String)
    (h : lookupAssoc FOLDER_BINDING_MAP folder = none) :
    emailStore fail now w folder key metadata body_key body =
      (w, .errText ("Folder \"" ++ folder ++ "\" is not mapped")) := by
  simp [emailStore, h]

/-- Witness for C6: a folder outside FOLDER_BINDING_MAP. -/
theorem email_store_unmapped_no_writes_witness :
    emailStore noFail "t0" emptyWorld "INBOX/Unmapped" "k" "md" "b" "body" =
      (emptyWorld, .errText ("Folder \"INBOX/Unmapped\" is not mapped")) :=
  email_store_unmapped_no_writes noFail "t0" emptyWorld "INBOX/Unmapped" "k" "md" "b" "body"
    (by decide)

/-- Counterexample to claim C2 as stated: in the batch ["a", "b"] the read
of a rejects while the read of b completes with a value, yet the bulk call
returns the bare rejection of Promise.all — there is no entry-level error
sentinel and the completed result for b is discarded with the whole batch. -/
theorem bulk_get_one_failure_discards_batch_cex :
    kvKeysBulkGet cexGet ["a", "b"] = Except.error () ∧
    cexGet "b" = Except.ok (some "v") ∧ ["a", "b"].length ≤ 100 :=
  ⟨rfl, rfl, by decide⟩

/-- Claim C2 as amended: for at most 100 keys, when every underlying read
completes (with a value or null), the bulk get returns one entry per
requested key carrying that key's own read result; but a failing read
rejects the whole batch (see the counterexample), it is not recorded
per-entry. The 100-key cap is enforced by the argument schema before the
handler runs; the handler result does not depend on it. -/
theorem bulk_get_all_reads_ok_entry_per_key
    (get : String → Except Unit (Option String)) (keys : List String)
    (_hlen : keys.length ≤ 100) (hok : ∀ k ∈ keys, ∃ v, get k = Except.ok v) :
    ∃ l, kvKeysBulkGet get keys = Except.ok l ∧
      l.map Prod.fst = keys ∧ ∀ p ∈ l, get p.1 = Except.ok p.2 :=
  kvKeysBulkGet_ok get keys hok

/-- Witness for C2: two absent keys both get their null entries. -/
theorem bulk_get_all_reads_ok_entry_per_key_witness :
    ∃ l, kvKeysBulkGet allAbsentGet ["x", "y"] = Except.ok l ∧
      l.map Prod.fst = ["x", "y"] ∧ ∀ p ∈ l, allAbsentGet p.1 = Except.ok p.2 :=
  bulk_get_all_reads_ok_entry_per_key allAbsentGet ["x", "y"] (by decide)
    (by intro k _; exact ⟨none, rfl⟩)

/-- Counterexample to claim C3 as stated: against a store that never reports
completion the loop has made 20000 page calls — far past the stated 10000
page bound — and is still running; the source has no iteration cap and no
PaginationExhausted failure (the embedded result type has no error case
because the source loop has none). -/
theorem list_all_no_cap_cex : listAllKeys evilStore none 20000 = none :=
  evilStore_go none 20000 none [] 0

/-- Claim C3 as amended: listAll stops as soon as a page reports completion,
returning the accumulated keys after that page call; against a store that
never reports completion it never terminates — there is no finite cap on
page calls and no PaginationExhausted error. -/
theorem list_all_stops_only_on_completion :
    (∀ (fuel : Nat) (c : Option Unit) (acc : List String) (pages : Nat) (pfx : Option String),
       listAllKeysGo evilStore pfx fuel c acc pages = none)
  ∧ (∀ (σ : Type) (kv : KVList σ) (pfx : Option String) (fuel : Nat) (c : Option σ)
       (acc : List String) (pages : Nat),
       (kv.list pfx c 1000).list_complete = true →
       listAllKeysGo kv pfx (fuel + 1) c acc pages =
         some (acc ++ (kv.list pfx c 1000).keys, pages + 1)) := by
  constructor
  · intro fuel c acc pages pfx
    exact evilStore_go pfx fuel c acc pages
  · intro σ kv pfx fuel c acc pages h
    rw [listAllKeysGo_succ, if_pos h]

/-- Witness for C3: a store whose first page is complete stops after one
call, and the never-completing store is still running after seven. -/
theorem list_all_stops_only_on_completion_witness :
    listAllKeysGo oneShotStore none 1 none [] 0 = some (["k1"], 1) ∧
    listAllKeysGo evilStore none 7 none [] 0 = none :=
  ⟨list_all_stops_only_on_completion.2 Unit oneShotStore none 0 none [] 0 rfl,
   list_all_stops_only_on_completion.1 7 none [] 0 none⟩

/-- Claim C4: resolveKV first checks the input as a raw binding key present
on the environment; only when that is absent does it consult NAMESPACE_MAP
and check the resolved binding key; when neither resolves it fails with the
unknown-namespace error, whose message is built from the full list of
registered human-readable names — spelled out in the last conjunct. -/
theorem resolve_order_spec (env : WEnv) (s : String) :
    (env.hasBinding s = true → resolveKV env s = Except.ok s)
  ∧ (env.hasBinding s = false → ∀ bk, lookupAssoc NAMESPACE_MAP s = some bk →
       bk ≠ "" → env.hasBinding bk = true → resolveKV env s = Except.ok bk)
  ∧ (env.hasBinding s = false →
       (∀ bk, lookupAssoc NAMESPACE_MAP s = some bk → bk = "" ∨ env.hasBinding bk = false) →
       resolveKV env s = Except.error (unknownNamespaceMsg s))
  ∧ availableNames = "bridge-accounts, court-of-appeal, chancery, admin-court, kings-bench, supreme, clerkenwell, central-london, liu, hk-law, lessel, letting-agents, barristers, gld, us-state-dept, estonia, hmcts, ico, phso, bar-standards, parliament" := by
  refine ⟨?_, ?_, ?_, by rfl⟩
  · intro h
    simp [resolveKV, h]
  · intro h bk hbk hne hb
    simp [resolveKV, h, hbk, hne, hb]
  · intro h hall
    simp only [resolveKV, h, Bool.false_eq_true, if_false]
    cases hbk : lookupAssoc NAMESPACE_MAP s with
    | none => rfl
    | some bk =>
      rcases hall bk hbk with h0 | h0
      · simp [h0]
      · simp [h0]

/-- Witness for C4: on the environment with exactly the declared bindings,
a human-readable name resolves through NAMESPACE_MAP, a raw binding key
resolves directly, and an unregistered input fails with the enumerating
error message. -/
theorem resolve_order_spec_witness :
    resolveKV envDeclared "court-of-appeal" = Except.ok "KV_COURT_OF_APPEAL" ∧
    resolveKV envDeclared "KV_ICO" = Except.ok "KV_ICO" ∧
    resolveKV envDeclared "nope" = Except.error (unknownNamespaceMsg "nope") :=
  ⟨(resolve_order_spec envDeclared "court-of-appeal").2.1 (by decide) "KV_COURT_OF_APPEAL"
      (by decide) (by decide) (by decide),
   (resolve_order_spec envDeclared "KV_ICO").1 (by decide),
   (resolve_order_spec envDeclared "nope").2.2.1 (by decide)
     (by intro bk hbk
         rw [(by decide : lookupAssoc NAMESPACE_MAP "nope" = none)] at hbk
         cases hbk)⟩

/-- Claim C5: for every registered non-excluded namespace the fleet scan
records 0 for an empty store, 1 for a one-key store, and -1 both for a
store with two or more keys (incomplete limit-1 page) and for a namespace
whose probe call fails. The behaviour sizes of all other namespaces is
arbitrary in this statement, so one failing store never changes — let alone
aborts — what any other namespace reports. -/
theorem pipeline_scan_per_namespace (sizes : String → Option Nat)
    (name bk : String) (hmem : (name, bk) ∈ NAMESPACE_MAP)
    (h1 : name ≠ "email-bodies") (h2 : name ≠ "bridge-accounts") :
    lookupAssoc (pipelineStatus (probeOf sizes)) name =
      some (match sizes bk with
            | none => (-1 : Int)
            | some 0 => 0
            | some 1 => 1
            | some (_ + 2) => -1) := by
  have h := pipelineStatusGo_lookup (probeOf sizes) NAMESPACE_MAP name bk (by decide) hmem h1 h2
  rw [pipelineStatus, h]
  congr 1
  cases hsz : sizes bk with
  | none => simp [probeOf, probeValue, hsz]
  | some n =>
    match n with
    | 0 => simp [probeOf, probeValue, hsz]
    | 1 => simp [probeOf, probeValue, hsz]
    | n + 2 =>
      have hd : (decide (n + 2 ≤ 1)) = false := decide_eq_false (by omega)
      simp [probeOf, probeValue, hsz, hd]

/-- Witness for C5: with the KV_LIU probe failing, the ICO namespace still
reports its count 1, the five-key supreme namespace reports -1, and the
failed liu namespace reports -1 — the failure is isolated. -/
theorem pipeline_scan_per_namespace_witness :
    lookupAssoc (pipelineStatus (probeOf sizesW)) "ico" = some 1 ∧
    lookupAssoc (pipelineStatus (probeOf sizesW)) "liu" = some (-1) ∧
    lookupAssoc (pipelineStatus (probeOf sizesW)) "supreme" = some (-1) :=
  ⟨pipeline_scan_per_namespace sizesW "ico" "KV_ICO" (by decide) (by decide) (by decide),
   pipeline_scan_per_namespace sizesW "liu" "KV_LIU" (by decide) (by decide) (by decide),
   pipeline_scan_per_namespace sizesW "supreme" "KV_SUPREME" (by decide) (by decide) (by decide)⟩

/-- Counterexample to claim C7 as stated: the kv_key_get result for an
absent key carries isError = true — at the tool surface a missing key is
reported as an error, not as a plain valid result. -/
theorem point_read_absent_flagged_error_cex :
    (kvKeyGet (fun _ => none) "missing").isError = true := rfl

/-- Claim C7 as amended: the underlying store read yields null (none) for an
absent key rather than a fault, but the kv_key_get tool converts null into a
result flagged isError = true whose message names the missing key; a present
key is returned as plain text with isError = false. The missing-key case is
thus distinguished only by its message text, not by a special non-error
status. -/
theorem point_read_absent_result (get : String → Option String) (key : String) :
    (get key = none → kvKeyGet get key = ⟨"Key \"" ++ key ++ "\" not found", true⟩)
  ∧ (∀ v, get key = some v → kvKeyGet get key = ⟨v, false⟩) := by
  constructor
  · intro h; simp [kvKeyGet, h]
  · intro v h; simp [kvKeyGet, h]

/-- Witness for C7: an absent and a present key. -/
theorem point_read_absent_result_witness :
    kvKeyGet (fun _ => none) "k" = ⟨"Key \"k\" not found", true⟩ ∧
    kvKeyGet (fun _ => some "val") "k" = ⟨"val", false⟩ :=
  ⟨(point_read_absent_result (fun _ => none) "k").1 rfl,
   (point_read_absent_result (fun _ => some "val") "k").2 "val" rfl⟩

/-- Counterexample to claim C8 as stated: on a store with zero keys and page
size 5 the do-while loop still makes one page call, but ceil(0/5) is 0 —
the stated page-call count fails for the empty store. -/
theorem list_all_empty_store_one_page_cex :
    listAllKeys (goodStore [] 5) none 1 = some ([], 1) ∧ ((0 : Nat) + 5 - 1) / 5 = 0 := by
  constructor <;> decide

/-- Claim C8 as amended: enumerating a store with N keys at page size P,
listAll threads the cursor page to page and returns exactly the N keys of
the store, in order, with no duplicates and no omissions, after
max(1, ceil(N/P)) page calls — the do-while shape costs one call even on an
empty store. -/
theorem list_all_exact_enumeration (keys : List String) (P fuel : Nat)
    (hP : 0 < P) (hf : pagesFor P keys.length ≤ fuel) :
    listAllKeys (goodStore keys P) none fuel =
      some (keys, max 1 ((keys.length + P - 1) / P)) := by
  have h := listAllKeys_goodStore keys P hP none fuel (by simpa [prefFilter] using hf)
  simpa [prefFilter, pagesFor] using h

/-- Witness for C8: the scenario store with keys a, b, c at page size 2 is
enumerated exactly in two page calls. -/
theorem list_all_exact_enumeration_witness :
    listAllKeys (goodStore ["a", "b", "c"] 2) none 2 =
      some (["a", "b", "c"], max 1 ((3 + 2 - 1) / 2)) :=
  list_all_exact_enumeration ["a", "b", "c"] 2 2 (by decide) (by decide)

/-- Claim C9: the environment interface declares no EMAIL_BODIES binding and
NAMESPACE_MAP has no email-bodies entry, so on any environment carrying
exactly the declared bindings, resolveKV rejects the input email-bodies with
the unknown-namespace error; yet the split write stores every body under the
EMAIL_BODIES binding, and the discovery tool lists email-bodies among the
system namespaces. -/
theorem email_bodies_unresolvable_but_used :
    "EMAIL_BODIES" ∉ declaredBindings
  ∧ lookupAssoc NAMESPACE_MAP "email-bodies" = none
  ∧ (∀ env : WEnv, (∀ b, env.hasBinding b = true ↔ b ∈ declaredBindings) →
       resolveKV env "email-bodies" = Except.error (unknownNamespaceMsg "email-bodies"))
  ∧ (∀ (fail : String → String → Bool) (now : String) (w : World)
       (folder key metadata body_key body : String) (m : FolderMapping),
       lookupAssoc FOLDER_BINDING_MAP folder = some m →
       fail m.binding key = false → fail "EMAIL_BODIES" body_key = false →
       (emailStore fail now w folder key metadata body_key body).1 "EMAIL_BODIES" body_key =
         some ⟨body, [("folder", folder), ("humanName", m.humanName), ("stored_at", now)]⟩)
  ∧ "email-bodies" ∈ (lookupAssoc namespacesListCategories "system").getD [] := by
  refine ⟨by decide, by decide, ?_, ?_, by decide⟩
  · intro env henv
    have h1 : env.hasBinding "email-bodies" = false := by
      cases h : env.hasBinding "email-bodies" with
      | false => rfl
      | true => exact absurd ((henv _).mp h) (by decide)
    simp [resolveKV, h1, (by decide : lookupAssoc NAMESPACE_MAP "email-bodies" = none)]
  · intro fail now w folder key metadata body_key body m hmap hf1 hf2
    simp [emailStore, hmap, hf1, hf2, putKV]

/-- Witness for C9: the concrete declared-bindings environment rejects
email-bodies, while a successful split write for Labels/Liu lands the body
under the EMAIL_BODIES binding. -/
theorem email_bodies_unresolvable_but_used_witness :
    resolveKV envDeclared "email-bodies" = Except.error (unknownNamespaceMsg "email-bodies") ∧
    (emailStore noFail "t0" emptyWorld "Labels/Liu" "email:1" "md" "b-uuid" "body").1
        "EMAIL_BODIES" "b-uuid" =
      some ⟨"body", [("folder", "Labels/Liu"), ("humanName", "Liu Litigation"), ("stored_at", "t0")]⟩ :=
  ⟨email_bodies_unresolvable_but_used.2.2.1 envDeclared
      (by intro b; simp [envDeclared]),
   email_bodies_unresolvable_but_used.2.2.2.1 noFail "t0" emptyWorld "Labels/Liu" "email:1"
      "md" "b-uuid" "body" ⟨"KV_LIU", "Liu Litigation"⟩ (by decide) (by decide) (by decide)⟩

/-- Claim C10: for a mapped folder the stats tool enumerates the owning
store with the fixed prefix filter "email:" and reports the count of the
keys so filtered — keys of the store that do not start with "email:" are
never counted. -/
theorem folder_stats_counts_only_email_prefix
    (stores : String → KVList Nat) (folder : String) (m : FolderMapping)
    (keys : List String) (P fuel : Nat)
    (hmap : lookupAssoc FOLDER_BINDING_MAP folder = some m)
    (hstore : stores m.binding = goodStore keys P) (hP : 0 < P)
    (hf : pagesFor P (keys.filter (fun k => strIsPrefixOf "email:" k)).length ≤ fuel) :
    emailFolderStats stores fuel folder =
      some (.stats m.humanName m.binding
        (keys.filter (fun k => strIsPrefixOf "email:" k)).length) := by
  have h := listAllKeys_goodStore keys P hP (some "email:") fuel (by simpa [prefFilter] using hf)
  simp only [emailFolderStats, hmap, hstore]
  rw [h]
  simp [prefFilter]

/-- Witness for C10: a supreme-court store holding two email-prefixed keys
and one other key reports count 2, not 3. -/
theorem folder_stats_counts_only_email_prefix_witness :
    emailFolderStats (fun _ => goodStore ["email:1", "note", "email:2"] 2) 5
        "INBOX/Courts/Supreme" =
      some (.stats "Supreme Court" "KV_SUPREME" 2) :=
  folder_stats_counts_only_email_prefix
    (fun _ => goodStore ["email:1", "note", "email:2"] 2) "INBOX/Courts/Supreme"
    ⟨"KV_SUPREME", "Supreme Court"⟩ ["email:1", "note", "email:2"] 2 5
    (by decide) rfl (by decide) (by decide)

end Spec2Proof
